import Mathlib

/-!
Shallow embedding of the formguias repository (src/app.py and
src/utils/form_generator.py).

Python dictionaries read with `.get(key)` are modelled as structures with
`Option` fields (`none` covers both an absent key and an explicit `null`);
`.get(key, default)` is `Option.getD`.  Python truthiness of a string is
"non-empty"; truthiness of an optional value is "present and non-empty".
HTML-producing functions are embedded at the widget-descriptor level: each
`_generate_*` helper of `FormGenerator` returns one descriptor carrying the
data the produced markup embeds (the id used as the `name` attribute of the
answerable input, the label text, the option list, the required flag);
`_generate_monday_column_question` returns `Option Widget` because the
source returns the empty string (no markup) for suppressed questions.
-/

namespace Formguias

/-- A question definition as stored in the configuration / form snapshot
(`question.get(...)` accesses in app.py and form_generator.py). -/
structure Question where
  id : Option String := none
  type : Option String := none
  text : Option String := none
  required : Bool := false
  destination_column : Option String := none
  question_destination_column : Option String := none
  source_column : Option String := none
  column_value : Option String := none
  placeholder : Option String := none
  dropdown_options : Option String := none
deriving DecidableEq, Repr

/-- The named header fields read from `header_data` in app.py and
form_generator.py (`header_data.get('Viagem')` etc.). -/
structure HeaderData where
  Viagem : Option String := none
  Destino : Option String := none
  Data : Option String := none
  Cliente : Option String := none
deriving DecidableEq, Repr

/-- The `event` object of the webhook payload
(`webhook_data.get('event', {}).get('pulseId')` / `.get('pulseName', ...)`). -/
structure WebhookEvent where
  pulseId : Option Nat := none
  pulseName : Option String := none
deriving DecidableEq, Repr

/-- The stored webhook payload (`stored_form_data.get('webhook_data', {})`). -/
structure WebhookData where
  event : Option WebhookEvent := none
deriving DecidableEq, Repr

/-- A stored form instance (`stored_form_data` in app.py). -/
structure FormData where
  type : Option String := none
  header_data : HeaderData := {}
  webhook_data : WebhookData := {}
  questions : List Question := []
deriving DecidableEq, Repr

/-- One form type's entry in `setup/config.json`
(`config.get(form_type, {})` in app.py). -/
structure FormTypeConfig where
  board_a : Option String := none
  board_b : Option String := none
  link_column : Option String := none
  questions : List Question := []
deriving DecidableEq, Repr

/-- The whole config document: form-type name to its configuration. -/
def ConfigDocument : Type := List (String × FormTypeConfig)

/-- `config.get(form_type, {})` where `form_type` itself came from
`stored_form_data.get('type')` and may be missing. -/
def config_get (config : ConfigDocument) (form_type : Option String) : FormTypeConfig :=
  match form_type with
  | none => {}
  | some ty => (List.lookup ty config).getD {}

/-- Python `str.strip()`: leading and trailing whitespace removed.
(An executable stand-in for `String.trim`, which is defined by
well-founded recursion and does not reduce in the kernel.) -/
def strip (s : String) : String :=
  ⟨((s.data.dropWhile Char.isWhitespace).reverse.dropWhile Char.isWhitespace).reverse⟩

/-- Python truthiness of an optional string: present and non-empty. -/
def py_truthy : Option String → Bool
  | none => false
  | some s => decide (s ≠ "")

/-- Python truthiness of an optional number: present and non-zero. -/
def py_truthy_nat : Option Nat → Bool
  | none => false
  | some n => decide (n ≠ 0)

/-! ## Form renderer (src/utils/form_generator.py), at widget level -/

/-- Widget descriptors for the HTML each `_generate_*` helper emits.  Every
constructor's first argument is the question id embedded as the `name`
attribute of the answerable input element of that markup. -/
inductive Widget where
  | textInput (name : String) (text : String) (placeholder : String) (required : Bool)
  | textarea (name : String) (text : String) (placeholder : String) (required : Bool)
  | dropdown (name : String) (text : String) (options : List String) (required : Bool)
  | yesno (name : String) (text : String) (required : Bool)
  | rating (name : String) (text : String) (required : Bool)
  | mondayRating (name : String) (label : String) (required : Bool)
deriving DecidableEq, Repr

/-- `FormGenerator._generate_text_question`. -/
def _generate_text_question (question_id : String) (question : Question)
    (required : Bool) : Widget :=
  Widget.textInput question_id (question.text.getD "") (question.placeholder.getD "") required

/-- `FormGenerator._generate_textarea_question`. -/
def _generate_textarea_question (question_id : String) (question : Question)
    (required : Bool) : Widget :=
  Widget.textarea question_id (question.text.getD "") (question.placeholder.getD "") required

/-- Option parsing of `FormGenerator._generate_dropdown_question`:
`dropdown_options.split(';')`, each entry stripped, empty entries dropped
(guarded by `if dropdown_options:`). -/
def dropdown_option_list (dropdown_options : String) : List String :=
  if dropdown_options = "" then []
  else ((dropdown_options.splitOn ";").map strip).filter (fun o => o ≠ "")

/-- `FormGenerator._generate_dropdown_question`. -/
def _generate_dropdown_question (question_id : String) (question : Question)
    (required : Bool) : Widget :=
  Widget.dropdown question_id (question.text.getD "")
    (dropdown_option_list (question.dropdown_options.getD "")) required

/-- `FormGenerator._generate_yesno_question`: two radio inputs named
`question_id` with values `yes` / `no`. -/
def _generate_yesno_question (question_id : String) (question : Question)
    (required : Bool) : Widget :=
  Widget.yesno question_id (question.text.getD "") required

/-- `FormGenerator._generate_rating_question`: ten circles and one hidden
input named `question_id`. -/
def _generate_rating_question (question_id : String) (question : Question)
    (required : Bool) : Widget :=
  Widget.rating question_id (question.text.getD "") required

/-- The `invalid_values` list of `_generate_monday_column_question`
(the `None` entry is represented by `Question.column_value = none`,
handled by the `not column_value` test). -/
def invalid_values : List String :=
  ["Erro ao carregar dados", "Dados não encontrados", "Dados não disponíveis",
   "Configuração incompleta", ""]

/-- `FormGenerator._generate_monday_column_question`: returns no widget
(the source returns `""`) when the baked-in `column_value` is missing,
empty, whitespace-only, or one of the `invalid_values` sentinels; otherwise
a rating widget whose label is the stripped column value. -/
def _generate_monday_column_question (question_id : String) (question : Question)
    (required : Bool) : Option Widget :=
  match question.column_value with
  | none => none
  | some column_value =>
    if column_value = "" ∨ strip column_value = "" ∨ column_value ∈ invalid_values then
      none
    else
      some (Widget.mondayRating question_id (strip column_value) required)

/-- The per-question dispatch of `FormGenerator.generate_html_form`
(lines 64-88): `fresh` stands for the `str(uuid.uuid4())` default used when
the question has no id.  Note the dispatch has no `divider` branch: any
unlisted type falls through to the final `else` and is rendered as a text
question. -/
def question_widget (fresh : String) (question : Question) : Option Widget :=
  let question_id := question.id.getD fresh
  let question_type := question.type.getD "text"
  let required := question.required
  if question_type = "text" then
    some (_generate_text_question question_id question required)
  else if question_type = "longtext" then
    some (_generate_textarea_question question_id question required)
  else if question_type = "dropdown" then
    some (_generate_dropdown_question question_id question required)
  else if question_type = "yesno" then
    some (_generate_yesno_question question_id question required)
  else if question_type = "rating" then
    some (_generate_rating_question question_id question required)
  else if question_type = "monday_column" then
    _generate_monday_column_question question_id question required
  else
    some (_generate_text_question question_id question required)

/-- The question loop of `FormGenerator.generate_html_form`, at widget
level: one widget per question, except that a suppressed
`monday_column` question contributes none (the source appends `""`).
`fresh i` is the uuid that would be generated for the question at index
`i` were its id missing. -/
def generate_html_form (fresh : Nat → String) (form_data : FormData) : List Widget :=
  (form_data.questions.enum).filterMap (fun iq => question_widget (fresh iq.1) iq.2)

/-! ## Submission handling and the background Sync Worker (src/app.py) -/

/-- One entry of the `updates_to_process` batch built by
`process_monday_updates` in app.py. -/
structure ColumnUpdate where
  column_id : String
  value : String
  description : String
deriving DecidableEq, Repr

/-- The header-field updates app.py appends first (lines 196-215): one per
truthy field, to fixed hardcoded column ids. -/
def header_updates (header_data : HeaderData) : List ColumnUpdate :=
  (match header_data.Destino with
   | some d => if d ≠ "" then [⟨"text_mkrb17ct", d, "Destino from header data"⟩] else []
   | none => []) ++
  (match header_data.Data with
   | some d => if d ≠ "" then [⟨"text_mksq2j87", d, "Data from header data"⟩] else []
   | none => []) ++
  (match header_data.Cliente with
   | some c => if c ≠ "" then [⟨"text_mkrjdnry", c, "Cliente from header data"⟩] else []
   | none => [])

/-- The truncated question text used in update descriptions
(`question.get('text', '')[:50] + "..." if len(...) > 50 else ...`). -/
def question_text_trunc (question : Question) : String :=
  let t := question.text.getD ""
  if t.length > 50 then t.take 50 ++ "..." else t

/-- The canonical-value substitution applied to an answered value before it
is batched (app.py lines 246-250). -/
def canonical_value (response_value : String) : String :=
  if response_value = "yes" then "Sim"
  else if response_value = "no" then "Não"
  else response_value

/-- The description string of an answered-question update
(`f"Question {question_id} ({question_type}) response: {question_text}"`;
a missing type prints as Python `None`). -/
def answer_description (question : Question) (question_id : String) : String :=
  let type_str := (question.type).getD "None"
  let question_text := question_text_trunc question
  s!"Question {question_id} ({type_str}) response: {question_text}"

/-- The updates one iteration of the question loop of
`process_monday_updates` (app.py lines 222-273) appends for `question`:
nothing for a `divider`; one update for an answered value that is non-empty
after stripping when a non-empty destination column is configured; and for
a `monday_column` question with a configured secondary destination column
and a valid baked-in value, one additional update carrying that value. -/
def question_updates (submission_data : List (String × String))
    (question : Question) : List ColumnUpdate :=
  if question.type = some "divider" then []
  else
    let answer_updates :=
      match question.id with
      | none => []
      | some question_id =>
        match List.lookup question_id submission_data with
        | none => []
        | some response_value =>
          let destination_column := question.destination_column.getD ""
          if response_value ≠ "" ∧ strip response_value ≠ "" ∧
             destination_column ≠ "" ∧ strip destination_column ≠ "" then
            [{ column_id := destination_column,
               value := canonical_value response_value,
               description := answer_description question question_id }]
          else []
    let monday_updates :=
      let question_destination_column := question.question_destination_column.getD ""
      if question.type = some "monday_column" ∧
         question_destination_column ≠ "" ∧ strip question_destination_column ≠ "" then
        let column_value := question.column_value.getD ""
        if column_value ≠ "" ∧
           column_value ∉ ["", "Dados não encontrados", "Erro ao carregar dados",
                           "Dados não disponíveis", "Configuração incompleta"] then
          let qid_str := (question.id).getD "None"
          [{ column_id := question_destination_column,
             value := column_value,
             description := s!"Monday column question {qid_str} text" }]
        else []
      else []
    answer_updates ++ monday_updates

/-- The full `updates_to_process` batch: header updates first, then the
question loop in list order. -/
def updates_to_process (header_data : HeaderData) (questions : List Question)
    (submission_data : List (String × String)) : List ColumnUpdate :=
  header_updates header_data ++ questions.flatMap (question_updates submission_data)

/-- The destination item name (app.py line 180):
`header_data.get('Viagem') or webhook_data.get('event', {}).get('pulseName',
'Resposta do Formulário')`. -/
def item_name_for (header_data : HeaderData) (webhook_data : WebhookData) : String :=
  let pulse_name := ((webhook_data.event.getD {}).pulseName).getD "Resposta do Formulário"
  match header_data.Viagem with
  | some v => if v = "" then pulse_name else v
  | none => pulse_name

/-- Remote Monday.com calls the worker issues, in order. -/
inductive RemoteCall where
  | create_item (board_id : String) (item_name : String)
  | update_item_column (board_id : String) (item_id : String)
      (column_id : String) (value : String)
deriving DecidableEq, Repr

/-- Which terminal log branch of `process_monday_updates` was reached.
`no_board_b` is the `logger.warning` branch (line 309, not an error);
`missing_ids` and `create_failed` are `logger.error` branches;
`completed` is the normal path. -/
inductive WorkerStatus where
  | no_board_b
  | missing_ids
  | create_failed
  | completed
deriving DecidableEq, Repr

/-- The background Sync Worker `process_monday_updates` (app.py lines
153-312), as the sequence of remote calls it issues plus the terminal
branch reached.  `create_item_id` is the oracle for
`create_result.get('create_item', {}).get('id')` returned by the Monday
API (`none` covers a failed call or a response without an id).  Each
`update_item_column` call is issued unconditionally in batch order except
that entries whose value is empty after stripping are skipped (lines
284-287); per-call failures are caught and do not alter the call
sequence. -/
def process_monday_updates (config : ConfigDocument) (stored_form_data : FormData)
    (submission_data : List (String × String)) (create_item_id : Option String) :
    List RemoteCall × WorkerStatus :=
  let form_config := config_get config stored_form_data.type
  if py_truthy form_config.board_b then
    let webhook_data := stored_form_data.webhook_data
    let item_id := (webhook_data.event.getD {}).pulseId
    let board_b := form_config.board_b.getD ""
    if py_truthy_nat item_id ∧ board_b ≠ "" then
      let header_data := stored_form_data.header_data
      let item_name := item_name_for header_data webhook_data
      let create_call := RemoteCall.create_item board_b item_name
      if py_truthy create_item_id then
        let new_item_id := create_item_id.getD ""
        let updates := updates_to_process header_data stored_form_data.questions submission_data
        let issued := updates.filter (fun u => ¬ (u.value = "" ∨ strip u.value = ""))
        (create_call ::
           issued.map (fun u =>
             RemoteCall.update_item_column board_b new_item_id u.column_id u.value),
         WorkerStatus.completed)
      else
        ([create_call], WorkerStatus.create_failed)
    else
      ([], WorkerStatus.missing_ids)
  else
    ([], WorkerStatus.no_board_b)

/-- The HTTP-level outcome of `submit_form` in app.py. -/
inductive SubmitResult where
  | not_found
  | success
  | server_error
deriving DecidableEq, Repr

/-- `submit_form` (app.py lines 131-325): look up the stored form (404 when
absent), otherwise spawn the background worker and immediately return the
success page.  The second component is the spawned worker's run (absent
when no form was found, so no worker is spawned); the HTTP result never
depends on it.  No validation of the answers happens on this path:
`validate_form_submission` is never called. -/
def submit_form (config : ConfigDocument) (stored_form_data : Option FormData)
    (submission_data : List (String × String)) (create_item_id : Option String) :
    SubmitResult × Option (List RemoteCall × WorkerStatus) :=
  match stored_form_data with
  | none => (SubmitResult.not_found, none)
  | some form_data =>
    (SubmitResult.success,
     some (process_monday_updates config form_data submission_data create_item_id))

/-- `FormGenerator.validate_form_submission` (form_generator.py lines
473-485): one error message per required question that is absent from the
submission or answered with a whitespace-only value.  (Defined in the
source but never invoked on the submission path.) -/
def validate_form_submission (form_data : FormData)
    (submission_data : List (String × String)) : List String :=
  form_data.questions.filterMap (fun question =>
    let missing :=
      match question.id with
      | none => true
      | some question_id =>
        match List.lookup question_id submission_data with
        | none => true
        | some v => decide (strip v = "")
    if question.required ∧ missing = true then
      let question_text :=
        match question.text with
        | some t => t
        | none =>
          let qid_str := (question.id).getD "None"
          s!"Question {qid_str}"
      some ("O campo \u0027" ++ question_text ++ "\u0027 é obrigatório")
    else none)

/-! ## Config Store and Form Store (file I/O modelled as state) -/

/-- The POST branch of `config_api` (app.py lines 76-85): whole-document
overwrite of `setup/config.json`.  The file is modelled as the JSON
document it holds (`json.dump` / `json.load` round-tripping on a valid
document is the standard-library contract). -/
def config_api_post (config_file : Option ConfigDocument)
    (config : ConfigDocument) : Option ConfigDocument :=
  let _ := config_file
  some config

/-- The GET branch of `config_api` (app.py lines 68-74): the parsed
document, or a 404 error when the file is absent. -/
def config_api_get : Option ConfigDocument → Except String ConfigDocument
  | none => Except.error "Configuration file not found"
  | some config => Except.ok config

/-- `FormGenerator.get_form_data`: the Forms folder is modelled as a map
from form id to the stored record; a missing file returns `None`. -/
def get_form_data (forms_folder : String → Option FormData)
    (form_id : String) : Option FormData :=
  forms_folder form_id

/-- `FormGenerator.delete_form`: removes the record if the file exists and
reports whether removal occurred (`True` when removed, `False` when the
file was absent). -/
def delete_form (forms_folder : String → Option FormData) (form_id : String) :
    Bool × (String → Option FormData) :=
  match forms_folder form_id with
  | some _ => (true, fun fid => if fid = form_id then none else forms_folder fid)
  | none => (false, forms_folder)

/-! ## Concrete sample data used by witnesses -/

/-- A yes/no question mapped to destination column `colA`. -/
def sample_yesno_question : Question :=
  { id := some "q1", type := some "yesno", destination_column := some "colA" }

/-- The config of the C4 scenario: `guias` has `board_b = "123"`. -/
def sample_trip_config : ConfigDocument :=
  [("guias", { board_b := some "123", link_column := some "x" })]

/-- The stored form of the C4 scenario. -/
def sample_trip_form : FormData :=
  { type := some "guias",
    header_data := { Viagem := some "Trip X" },
    webhook_data := { event := some { pulseId := some 999, pulseName := some "Trip A" } } }

/-- A form with a single required question. -/
def sample_required_form : FormData :=
  { questions := [{ id := some "q1", required := true, text := some "Nome" }] }

/-- A Forms folder holding exactly one record. -/
def sample_forms_folder : String → Option FormData :=
  fun fid => if fid = "form-1" then some {} else none

/-! ## Helper lemmas -/

/-- An answer key that matches no question id leaves that question's
contribution to the batch unchanged. -/
theorem question_updates_cons_ne (k v : String)
    (submission_data : List (String × String)) (question : Question)
    (h : question.id ≠ some k) :
    question_updates ((k, v) :: submission_data) question
      = question_updates submission_data question := by
  unfold question_updates
  rcases hid : question.id with _ | qid
  · rfl
  · have hbeq : (qid == k) = false :=
      beq_eq_false_iff_ne.mpr (fun hh => h (by rw [hid, hh]))
    simp only [List.lookup, hbeq, hid]

/-! ## Claims -/

/-- C1: with answers `{q1 ↦ yes}` and the single non-divider question `q1`
mapped to destination column `colA`, the Sync Worker's `updates_to_process`
batch is exactly `[{column_id := colA, value := Sim, ...}]`; and in
general, every non-divider question answered with a value that is
non-empty after stripping, whose configured destination column is
non-empty after stripping, contributes its update to the batch, the value
being the answer under the canonical substitution `yes → Sim`,
`no → Não`, everything else verbatim. -/
theorem answered_question_update_in_batch
    (header_data : HeaderData) (questions : List Question)
    (submission_data : List (String × String)) :
    (updates_to_process {} [sample_yesno_question] [("q1", "yes")]
      = [{ column_id := "colA", value := "Sim",
           description := "Question q1 (yesno) response: " }])
    ∧ canonical_value "yes" = "Sim"
    ∧ canonical_value "no" = "Não"
    ∧ (∀ w, w ≠ "yes" → w ≠ "no" → canonical_value w = w)
    ∧ (∀ question ∈ questions, question.type ≠ some "divider" →
        ∀ question_id, question.id = some question_id →
        ∀ response_value,
          List.lookup question_id submission_data = some response_value →
          strip response_value ≠ "" →
        ∀ destination_column,
          question.destination_column = some destination_column →
          strip destination_column ≠ "" →
        ({ column_id := destination_column,
           value := canonical_value response_value,
           description := answer_description question question_id } : ColumnUpdate)
          ∈ updates_to_process header_data questions submission_data) := by
  refine ⟨by decide, rfl, rfl, ?_, ?_⟩
  · intro w hy hn
    unfold canonical_value
    rw [if_neg hy, if_neg hn]
  · intro question hq hdiv question_id hqid response_value hlook hrv
      destination_column hdc hdcs
    have hrv0 : response_value ≠ "" := by
      intro hh; exact hrv (by rw [hh]; rfl)
    have hdc0 : destination_column ≠ "" := by
      intro hh; exact hdcs (by rw [hh]; rfl)
    unfold updates_to_process
    refine List.mem_append_right _ (List.mem_flatMap.mpr ⟨question, hq, ?_⟩)
    unfold question_updates
    rw [if_neg hdiv, hqid]
    simp only [hlook, hdc, Option.getD_some]
    rw [if_pos ⟨hrv0, hrv, hdc0, hdcs⟩]
    exact List.mem_append_left _ (List.mem_singleton.mpr rfl)

/-- Witness for C1 at the concrete scenario input. -/
theorem answered_question_update_in_batch_witness :
    ({ column_id := "colA", value := canonical_value "yes",
       description := answer_description sample_yesno_question "q1" } : ColumnUpdate)
      ∈ updates_to_process {} [sample_yesno_question] [("q1", "yes")] :=
  (answered_question_update_in_batch {} [sample_yesno_question] [("q1", "yes")]).2.2.2.2
    sample_yesno_question (List.mem_singleton.mpr rfl) (by decide)
    "q1" rfl "yes" rfl (by decide) "colA" rfl (by decide)

/-- C2 counterexample: the sentinel strings in the code are the Portuguese
originals, not the English strings the claim quotes; a `monday_column`
question whose baked-in value is the English string "data not found" is
NOT suppressed — it renders as a rating widget labelled by that value. -/
theorem english_sentinel_not_suppressed :
    question_widget "u0"
        { id := some "q1", type := some "monday_column",
          column_value := some "data not found" }
      = some (Widget.mondayRating "q1" "data not found" false) := by decide

/-- C2 (amended): a `monday_column` question whose baked-in value is
missing, empty, or one of the four fixed Portuguese sentinel error strings
(`Dados não encontrados`, `Erro ao carregar dados`,
`Dados não disponíveis`, `Configuração incompleta` — which the spec
glosses in English) renders no widget at all. -/
theorem board_column_sentinel_suppressed (fresh : String) (question : Question)
    (htype : question.type = some "monday_column")
    (hval : question.column_value = none ∨ question.column_value = some "" ∨
            question.column_value = some "Dados não encontrados" ∨
            question.column_value = some "Erro ao carregar dados" ∨
            question.column_value = some "Dados não disponíveis" ∨
            question.column_value = some "Configuração incompleta") :
    question_widget fresh question = none := by
  unfold question_widget
  simp only [htype, Option.getD_some]
  rw [if_pos trivial]
  unfold _generate_monday_column_question
  rcases hval with h | h | h | h | h | h <;> rw [h] <;> rfl

/-- Witness for C2 (amended) at a concrete sentinel value. -/
theorem board_column_sentinel_suppressed_witness :
    question_widget "u0"
        { id := some "q1", type := some "monday_column",
          column_value := some "Dados não encontrados" }
      = none :=
  board_column_sentinel_suppressed "u0" _ rfl (Or.inr (Or.inr (Or.inl rfl)))

/-- C3 (evidence of the code bug): `generate_html_form` has no `divider`
branch, so a `divider` question falls through the dispatch's final `else`
and is rendered by `_generate_text_question` as an answerable text input
whose `name` attribute is the question's id — not as a visual section
break without an answerable input (the unused `_generate_section_header`
helper shows the intended markup). -/
theorem divider_rendered_as_text_input :
    generate_html_form (fun _ => "uuid-0")
        { questions := [{ id := some "d1", type := some "divider" }] }
      = [Widget.textInput "d1" "" "" false] := by decide

/-- C4: the created item's name is the truthy `Viagem` header field when
present, else the webhook event's `pulseName` when present, else the fixed
fallback `Resposta do Formulário`; in the C4 scenario the creation call is
`create_item "123" "Trip X"`. -/
theorem item_name_resolution :
    (∀ (header_data : HeaderData) (webhook_data : WebhookData) (viagem : String),
       header_data.Viagem = some viagem → viagem ≠ "" →
       item_name_for header_data webhook_data = viagem)
    ∧ (∀ (header_data : HeaderData) (webhook_data : WebhookData) (p : String),
         (header_data.Viagem = none ∨ header_data.Viagem = some "") →
         (webhook_data.event.getD {}).pulseName = some p →
         item_name_for header_data webhook_data = p)
    ∧ (∀ (header_data : HeaderData) (webhook_data : WebhookData),
         (header_data.Viagem = none ∨ header_data.Viagem = some "") →
         (webhook_data.event.getD {}).pulseName = none →
         item_name_for header_data webhook_data = "Resposta do Formulário")
    ∧ (process_monday_updates sample_trip_config sample_trip_form [] (some "777")).1
        = [RemoteCall.create_item "123" "Trip X"] := by
  refine ⟨?_, ?_, ?_, by decide⟩
  · intro header_data webhook_data viagem hv hne
    unfold item_name_for
    rw [hv]
    simp only [if_neg hne]
  · intro header_data webhook_data p hv hp
    unfold item_name_for
    rcases hv with h | h <;> rw [h] <;> simp [hp]
  · intro header_data webhook_data hv hp
    unfold item_name_for
    rcases hv with h | h <;> rw [h] <;> simp [hp]

/-- Witness for C4 at the scenario's header and webhook data. -/
theorem item_name_resolution_witness :
    item_name_for { Viagem := some "Trip X" }
        { event := some { pulseId := some 999, pulseName := some "Trip A" } }
      = "Trip X" :=
  item_name_resolution.1 _ _ "Trip X" rfl (by decide)

/-- C5: when the freshly loaded config has no truthy `board_b` for the
form's type, the worker issues no remote call at all and reaches the
`no_board_b` warning branch (a `logger.warning`, not an error). -/
theorem no_board_b_terminates_with_no_calls
    (config : ConfigDocument) (stored_form_data : FormData)
    (submission_data : List (String × String)) (create_item_id : Option String)
    (h : py_truthy (config_get config stored_form_data.type).board_b = false) :
    process_monday_updates config stored_form_data submission_data create_item_id
      = ([], WorkerStatus.no_board_b) := by
  unfold process_monday_updates
  simp [h]

/-- Witness for C5: a form type absent from the config. -/
theorem no_board_b_terminates_with_no_calls_witness :
    process_monday_updates [] { type := some "guias" } [] none
      = ([], WorkerStatus.no_board_b) :=
  no_board_b_terminates_with_no_calls [] { type := some "guias" } [] none (by decide)

/-- C6: a `divider` question contributes nothing to the update batch even
when the answers map holds a value keyed by its id — removing it from the
question list leaves the batch unchanged. -/
theorem divider_never_in_update_batch
    (header_data : HeaderData) (pre post : List Question) (question : Question)
    (submission_data : List (String × String))
    (h : question.type = some "divider") :
    updates_to_process header_data (pre ++ question :: post) submission_data
      = updates_to_process header_data (pre ++ post) submission_data := by
  have hq : question_updates submission_data question = [] := by
    unfold question_updates
    rw [if_pos h]
  unfold updates_to_process
  simp [hq]

/-- Witness for C6: a divider whose id is answered in the submission. -/
theorem divider_never_in_update_batch_witness :
    updates_to_process {} [{ id := some "d1", type := some "divider" }] [("d1", "x")]
      = updates_to_process {} [] [("d1", "x")] :=
  divider_never_in_update_batch {} [] [] { id := some "d1", type := some "divider" }
    [("d1", "x")] rfl

/-- C7: for any stored form and any answers map whatsoever the submission
handler returns the success page; in particular it still does so when
`validate_form_submission` (never invoked on this path) would report
missing required answers. -/
theorem submit_form_accepts_without_validation
    (config : ConfigDocument) (form_data : FormData)
    (submission_data : List (String × String)) (create_item_id : Option String) :
    (submit_form config (some form_data) submission_data create_item_id).1
      = SubmitResult.success
    ∧ (validate_form_submission form_data submission_data ≠ [] →
       (submit_form config (some form_data) submission_data create_item_id).1
         = SubmitResult.success) :=
  ⟨rfl, fun _ => rfl⟩

/-- Witness for C7: an empty submission against a form with a required
question fails validation yet is accepted. -/
theorem submit_form_accepts_without_validation_witness :
    validate_form_submission sample_required_form [] ≠ []
    ∧ (submit_form [] (some sample_required_form) [] none).1 = SubmitResult.success :=
  ⟨by decide,
   (submit_form_accepts_without_validation [] sample_required_form [] none).2 (by decide)⟩

/-- C8: an answer key matching no question id in the form's snapshot is
ignored: it changes the update batch not at all, and the submission still
returns the success page. -/
theorem unknown_answer_keys_ignored
    (config : ConfigDocument) (form_data : FormData) (k v : String)
    (submission_data : List (String × String)) (create_item_id : Option String)
    (h : ∀ question ∈ form_data.questions, question.id ≠ some k) :
    updates_to_process form_data.header_data form_data.questions
        ((k, v) :: submission_data)
      = updates_to_process form_data.header_data form_data.questions submission_data
    ∧ (submit_form config (some form_data) ((k, v) :: submission_data) create_item_id).1
      = SubmitResult.success := by
  refine ⟨?_, rfl⟩
  unfold updates_to_process
  congr 1
  have key : ∀ qs : List Question, (∀ q ∈ qs, q.id ≠ some k) →
      qs.flatMap (question_updates ((k, v) :: submission_data))
        = qs.flatMap (question_updates submission_data) := by
    intro qs
    induction qs with
    | nil => intro _; rfl
    | cons question rest ih =>
      intro hqs
      have h1 : question.id ≠ some k := hqs question (List.mem_cons_self question rest)
      have h2 : ∀ q ∈ rest, q.id ≠ some k := fun q hq => hqs q (List.mem_cons_of_mem _ hq)
      simp only [List.flatMap_cons, question_updates_cons_ne k v submission_data question h1,
        ih h2]
  exact key form_data.questions h

/-- Witness for C8: an unknown key `zzz` added to the C1 scenario. -/
theorem unknown_answer_keys_ignored_witness :
    updates_to_process {} [sample_yesno_question] (("zzz", "1") :: [("q1", "yes")])
      = updates_to_process {} [sample_yesno_question] [("q1", "yes")]
    ∧ (submit_form [] (some { questions := [sample_yesno_question] })
         (("zzz", "1") :: [("q1", "yes")]) none).1 = SubmitResult.success :=
  unknown_answer_keys_ignored [] { questions := [sample_yesno_question] } "zzz" "1"
    [("q1", "yes")] none (by decide)

/-- C9: overwriting the config file with a document and then reading it
back yields that very document (the `json.dump` / `json.load` pair on the
file is modelled as storing the document, their library contract). -/
theorem config_save_load_roundtrip (config_file : Option ConfigDocument)
    (config : ConfigDocument) :
    config_api_get (config_api_post config_file config) = Except.ok config := rfl

/-- C10: deleting a stored form returns `True` and removes it, after which
`get_form_data` returns `None` and a second delete returns `False`. -/
theorem delete_form_idempotent
    (forms_folder : String → Option FormData) (form_id : String) (form_data : FormData)
    (h : forms_folder form_id = some form_data) :
    (delete_form forms_folder form_id).1 = true
    ∧ get_form_data (delete_form forms_folder form_id).2 form_id = none
    ∧ (delete_form (delete_form forms_folder form_id).2 form_id).1 = false := by
  unfold delete_form get_form_data
  rw [h]
  simp

/-- Witness for C10 on a one-record folder. -/
theorem delete_form_idempotent_witness :
    (delete_form sample_forms_folder "form-1").1 = true
    ∧ get_form_data (delete_form sample_forms_folder "form-1").2 "form-1" = none
    ∧ (delete_form (delete_form sample_forms_folder "form-1").2 "form-1").1 = false :=
  delete_form_idempotent sample_forms_folder "form-1" {} (by simp [sample_forms_folder])

end Formguias
